import Mathlib

/-!
Shallow embedding of the Briscola game core of the BriscolaOnline repository.

Source files embedded here:
* `src/components/Card.tsx` — card domain model, `CARD_SCORES`, `CARD_NAMES`,
  `BRISCOLA_VALUE_ORDER`, `createDeck`, `shuffleDeck` (the exported copies).
* `src/app/page.tsx` — the same four definitions re-declared locally, plus the
  game component state (`playedCards`, `currentTurn`, `gameState`) and the
  handlers `initializeGame` and `handleCardPlay`, and the mock `playerHand`.

Presentation-only concerns (styled components, notifications, avatars, CSS
transform strings, animation delays) are not modelled: they never touch the
shared game state.  `Math.random()` is modelled explicitly: the pure shuffle
takes a draw function, and a second "global stream with call counter" version
models the fact that the source reads the ambient `Math.random` stream.
-/

/-- TS `enum Suit` from both files; `Object.values(Suit)` enumerates in
declaration order: club, coin, cup, sword. -/
inductive Suit where
  | club
  | coin
  | cup
  | sword
deriving DecidableEq, Repr

/-- TS `enum CardValue`; declaration order is 1..7, jack, knight, king. -/
inductive CardValue where
  | one
  | two
  | three
  | four
  | five
  | six
  | seven
  | jack
  | knight
  | king
deriving DecidableEq, Repr

/-- The string value of each `Suit` enum member ('club', 'coin', ...). -/
def suitString : Suit → String
  | .club => "club"
  | .coin => "coin"
  | .cup => "cup"
  | .sword => "sword"

/-- The string value of each `CardValue` enum member ('1', ..., 'king'). -/
def valueString : CardValue → String
  | .one => "1"
  | .two => "2"
  | .three => "3"
  | .four => "4"
  | .five => "5"
  | .six => "6"
  | .seven => "7"
  | .jack => "jack"
  | .knight => "knight"
  | .king => "king"

/-- `Object.values(Suit)` in declaration order. -/
def allSuits : List Suit := [.club, .coin, .cup, .sword]

/-- `Object.values(CardValue)` in declaration order. -/
def allValues : List CardValue :=
  [.one, .two, .three, .four, .five, .six, .seven, .jack, .knight, .king]

/-- `interface Card` (identical in Card.tsx and page.tsx). -/
structure Card where
  suit : Suit
  value : CardValue
  score : Nat
  name : String
  imagePath : String
  id : String
deriving DecidableEq, Repr

/-- `CARD_SCORES` record from page.tsx lines 354-365. -/
def CARD_SCORES : CardValue → Nat
  | .one => 11
  | .two => 0
  | .three => 10
  | .four => 0
  | .five => 0
  | .six => 0
  | .seven => 0
  | .jack => 2
  | .knight => 3
  | .king => 4

/-- `CARD_NAMES` record from page.tsx lines 367-378. -/
def CARD_NAMES : CardValue → String
  | .one => "Ace"
  | .two => "Two"
  | .three => "Three"
  | .four => "Four"
  | .five => "Five"
  | .six => "Six"
  | .seven => "Seven"
  | .jack => "Jack"
  | .knight => "Knight"
  | .king => "King"

/-- `BRISCOLA_VALUE_ORDER` from page.tsx lines 305-316. -/
def BRISCOLA_VALUE_ORDER : List CardValue :=
  [.one, .three, .king, .knight, .jack, .seven, .six, .five, .four, .two]

/-- The card literal built inside `createDeck` for a given suit and value. -/
def mkCard (suit : Suit) (value : CardValue) : Card :=
  { suit := suit
    value := value
    score := CARD_SCORES value
    name := CARD_NAMES value ++ " of " ++ suitString suit ++ "s"
    imagePath := "/assets/cards/" ++ suitString suit ++ "/" ++ suitString suit
      ++ "_" ++ valueString value ++ ".png"
    id := suitString suit ++ "_" ++ valueString value }

/-- `createDeck` from page.tsx lines 380-391: suit-major flatMap over
`Object.values(Suit)`, rank-major map over `Object.values(CardValue)`. -/
def createDeck : List Card :=
  allSuits.flatMap fun suit => allValues.map fun value => mkCard suit value

/-- `[shuffled[i], shuffled[j]] = [shuffled[j], shuffled[i]]`: swap the
entries at positions `i` and `j`; out-of-range indices leave the list as is
(both indices are always in range in the source loop). -/
def swapIdx {α : Type} (l : List α) (i j : Nat) : List α :=
  match l[i]?, l[j]? with
  | some x, some y => (l.set i y).set j x
  | _, _ => l

/-- The `for (let i = length-1; i > 0; i--)` loop of `shuffleDeck`
(page.tsx lines 395-398).  `rnd i` models the `Math.random()` draw used at
loop index `i`; `rnd i % (i+1)` is `Math.floor(Math.random() * (i + 1))`,
a value in `[0, i]`. -/
def shuffleLoop {α : Type} (rnd : Nat → Nat) : Nat → List α → List α
  | 0, l => l
  | i + 1, l => shuffleLoop rnd i (swapIdx l (i + 1) (rnd (i + 1) % (i + 2)))

/-- `shuffleDeck` from page.tsx lines 393-400, with the sequence of random
draws passed explicitly (one draw per loop index). -/
def shuffleDeck (rnd : Nat → Nat) (deck : List Card) : List Card :=
  shuffleLoop rnd (deck.length - 1) deck

/-- The same loop against the ambient `Math.random` stream `g`: the `k`
argument is the global call counter, incremented at every draw.  This models
that the source calls `Math.random()` (shared global state) rather than an
injected source: the result depends on how many draws happened before. -/
def shuffleLoopG {α : Type} (g : Nat → Nat) : Nat → Nat → List α → List α × Nat
  | k, 0, l => (l, k)
  | k, i + 1, l => shuffleLoopG g (k + 1) i (swapIdx l (i + 1) (g k % (i + 2)))

/-- `shuffleDeck` as actually effectful: run against the global stream `g`
starting at call-counter position `k`; returns the shuffled deck and the new
counter position. -/
def shuffleDeckGlobal (g : Nat → Nat) (k : Nat) (deck : List Card) :
    List Card × Nat :=
  shuffleLoopG g k (deck.length - 1) deck

/-! The exported copies in `src/components/Card.tsx` (lines 26-96).  They are
separate declarations in the source, so they are separate declarations here;
claim C9 compares them with the page.tsx copies above. -/

namespace CardTsx

/-- `BRISCOLA_VALUE_ORDER` as exported from Card.tsx lines 26-37. -/
def BRISCOLA_VALUE_ORDER : List CardValue :=
  [.one, .three, .king, .knight, .jack, .seven, .six, .five, .four, .two]

/-- `CARD_SCORES` as exported from Card.tsx lines 49-60. -/
def CARD_SCORES : CardValue → Nat
  | .one => 11
  | .two => 0
  | .three => 10
  | .four => 0
  | .five => 0
  | .six => 0
  | .seven => 0
  | .jack => 2
  | .knight => 3
  | .king => 4

/-- `CARD_NAMES` as exported from Card.tsx lines 62-73. -/
def CARD_NAMES : CardValue → String
  | .one => "Ace"
  | .two => "Two"
  | .three => "Three"
  | .four => "Four"
  | .five => "Five"
  | .six => "Six"
  | .seven => "Seven"
  | .jack => "Jack"
  | .knight => "Knight"
  | .king => "King"

/-- The card literal built inside Card.tsx's `createDeck`. -/
def mkCard (suit : Suit) (value : CardValue) : Card :=
  { suit := suit
    value := value
    score := CARD_SCORES value
    name := CARD_NAMES value ++ " of " ++ suitString suit ++ "s"
    imagePath := "/assets/cards/" ++ suitString suit ++ "/" ++ suitString suit
      ++ "_" ++ valueString value ++ ".png"
    id := suitString suit ++ "_" ++ valueString value }

/-- `createDeck` as exported from Card.tsx lines 76-87. -/
def createDeck : List Card :=
  allSuits.flatMap fun suit => allValues.map fun value => CardTsx.mkCard suit value

/-- The shuffle loop of Card.tsx's `shuffleDeck` (lines 91-94). -/
def shuffleLoop (rnd : Nat → Nat) : Nat → List Card → List Card
  | 0, l => l
  | i + 1, l =>
    CardTsx.shuffleLoop rnd i (swapIdx l (i + 1) (rnd (i + 1) % (i + 2)))

/-- `shuffleDeck` as exported from Card.tsx lines 89-96. -/
def shuffleDeck (rnd : Nat → Nat) (deck : List Card) : List Card :=
  CardTsx.shuffleLoop rnd (deck.length - 1) deck

end CardTsx

/-! Game state of the `GameApp` component in page.tsx. -/

/-- `interface PlayedCardData` (page.tsx lines 327-331), minus the purely
visual `transform` CSS string. -/
structure PlayedCardData where
  card : Card
  playerId : String
deriving DecidableEq, Repr

/-- `interface GameState` (page.tsx lines 346-351). -/
structure GameState where
  deck : List Card
  trumpCard : Option Card
  gameStarted : Bool
  isShuffling : Bool
deriving DecidableEq, Repr

/-- The shared multiplayer state of `GameApp`: the player roster (ordered
list of player ids from `usePlayersList`) together with the three
`useMultiplayerState` cells `playedCards`, `currentTurn` and `gameState`. -/
structure AppState where
  players : List String
  playedCards : List PlayedCardData
  currentTurn : Nat
  gameState : GameState
deriving DecidableEq, Repr

/-- `players.findIndex(p => p.id === currentPlayer?.id)` (page.tsx line 540):
JS `findIndex` returns -1 when no element matches, and `p.id === undefined`
is false for every roster entry, so an absent `currentPlayer` yields -1. -/
def currentPlayerIndex (players : List String) (currentPlayer : Option String) :
    Int :=
  match currentPlayer with
  | none => -1
  | some pid =>
    match players.findIdx? (fun q => q == pid) with
    | some k => (k : Int)
    | none => -1

/-- The acceptance condition of `handleCardPlay` (page.tsx line 579): the
negation of `!isMyTurn || !currentPlayer || !gameState.gameStarted`. -/
def playAccepted (s : AppState) (currentPlayer : Option String) : Bool :=
  currentPlayer.isSome
    && (currentPlayerIndex s.players currentPlayer == (s.currentTurn : Int))
    && s.gameState.gameStarted

/-- `handleCardPlay` (page.tsx lines 578-593).  On rejection the handler only
shows a local notification banner (client-local UI state, not modelled) and
returns; on acceptance it appends the played card with the submitter's id to
`playedCards` and sets `currentTurn` to `(currentTurn + 1) % players.length`.
No other shared state is touched. -/
def handleCardPlay (s : AppState) (currentPlayer : Option String) (card : Card) :
    AppState :=
  match currentPlayer with
  | none => s
  | some pid =>
    if !(currentPlayerIndex s.players (some pid) == (s.currentTurn : Int))
        || !s.gameState.gameStarted then
      s
    else
      { s with
        playedCards := s.playedCards ++ [{ card := card, playerId := pid }]
        currentTurn := (s.currentTurn + 1) % s.players.length }

/-- `initializeGame` (page.tsx lines 556-576), run against the global
`Math.random` stream implicit in `shuffleDeck`, here passed as `rnd`.  The
transient `isShuffling = true` state set before the 2-second sleep is elided;
modelled is the final committed `setGameState`: `newDeck.pop()` removes the
last element of the shuffled array as the trump card, the deck keeps the
remaining cards. -/
def initializeGame (rnd : Nat → Nat) (isGameHost : Bool) (s : AppState) :
    AppState :=
  if !isGameHost || s.gameState.gameStarted then s
  else
    let newDeck := shuffleDeck rnd createDeck
    { s with
      gameState :=
        { deck := newDeck.dropLast
          trumpCard := newDeck.getLast?
          gameStarted := true
          isShuffling := false } }

/-- `playerHand` (page.tsx lines 619-622): `gameState.gameStarted ?
[createDeck()[0], createDeck()[1], createDeck()[2]] : []` — the first three
cards of a fresh canonical deck, i.e. `createDeck.take 3`, independent of the
live deck. -/
def playerHand (s : AppState) : List Card :=
  if s.gameState.gameStarted then createDeck.take 3 else []

/-- The turn-advance step embedded in `handleCardPlay` (page.tsx line 591):
`(currentTurn + 1) % players.length`. -/
def advanceTurn (rosterSize c : Nat) : Nat := (c + 1) % rosterSize

/-! Concrete fixtures used by witnesses and counterexamples. -/

/-- A two-player lobby before the host starts the game: the
`useMultiplayerState` defaults of page.tsx lines 524-531 with two players. -/
def startState : AppState :=
  { players := ["alice", "bob"]
    playedCards := []
    currentTurn := 0
    gameState :=
      { deck := [], trumpCard := none, gameStarted := false, isShuffling := false } }

/-- A draw sequence whose swaps are all no-ops (`j = i` at every step), so the
shuffled deck is the canonical deck. -/
def rnd0 : Nat → Nat := fun i => i

/-- A draw sequence that always picks `j = 0`. -/
def rndC : Nat → Nat := fun _ => 0

/-- The state right after the host's `initializeGame` committed, under the
no-op draw sequence `rnd0`. -/
def playingState : AppState := initializeGame rnd0 true startState

/-- A global `Math.random` stream used to refute fixed-seed reproducibility:
first call returns a value with `floor(r*2) = 0`, later calls one with
`floor(r*2) = 1`. -/
def gStream : Nat → Nat := fun k => if k = 0 then 0 else 1

/-- A two-card deck. -/
def twoCards : List Card := [mkCard .club .one, mkCard .club .two]

/-! Helper lemmas about the swap/shuffle loop. -/

/-- Moving the element at position `m` to the front while writing `x` in its
place is a permutation step: if `t.get? m = some y` then
`y :: t.set m x ~ x :: t`. -/
theorem swap_cons_perm {α : Type} (t : List α) (m : Nat) (x y : α)
    (h : t[m]? = some y) : List.Perm (y :: t.set m x) (x :: t) := by
  induction t generalizing m with
  | nil => simp at h
  | cons b t' ih =>
    cases m with
    | zero =>
      simp at h
      subst h
      exact List.Perm.swap x b t'
    | succ m' =>
      simp at h
      have ihm := ih m' h
      have s1 : List.Perm (y :: b :: t'.set m' x) (b :: y :: t'.set m' x) :=
        List.Perm.swap b y _
      have s2 : List.Perm (b :: y :: t'.set m' x) (b :: x :: t') :=
        List.Perm.cons b ihm
      have s3 : List.Perm (b :: x :: t') (x :: b :: t') := List.Perm.swap x b t'
      exact (s1.trans s2).trans s3

/-- Writing each of two in-range positions with the other's value is a
permutation of the original list. -/
theorem set_set_perm {α : Type} (l : List α) (i j : Nat) (x y : α)
    (hi : l[i]? = some x) (hj : l[j]? = some y) :
    List.Perm ((l.set i y).set j x) l := by
  induction l generalizing i j with
  | nil => simp at hi
  | cons a t ih =>
    cases i with
    | zero =>
      simp at hi
      subst hi
      cases j with
      | zero =>
        simp at hj
        subst hj
        exact List.Perm.refl _
      | succ m =>
        simp at hj
        exact swap_cons_perm t m a y hj
    | succ k =>
      simp at hi
      cases j with
      | zero =>
        simp at hj
        subst hj
        exact swap_cons_perm t k a x hi
      | succ m =>
        simp at hj
        exact List.Perm.cons a (ih k m hi hj)

/-- `swapIdx` is a permutation. -/
theorem swapIdx_perm {α : Type} (l : List α) (i j : Nat) :
    List.Perm (swapIdx l i j) l := by
  unfold swapIdx
  split
  · rename_i x y hi hj
    exact set_set_perm l i j x y hi hj
  · exact List.Perm.refl l

/-- Every run of the shuffle loop is a permutation of its input. -/
theorem shuffleLoop_perm {α : Type} (rnd : Nat → Nat) :
    ∀ (i : Nat) (l : List α), List.Perm (shuffleLoop rnd i l) l
  | 0, l => List.Perm.refl l
  | i + 1, l =>
    List.Perm.trans (shuffleLoop_perm rnd i _)
      (swapIdx_perm l (i + 1) (rnd (i + 1) % (i + 2)))

/-- The shuffle loop only reads the draw function at indices `1..i`. -/
theorem shuffleLoop_congr {α : Type} (rnd₁ rnd₂ : Nat → Nat) :
    ∀ (i : Nat) (l : List α), (∀ t, 1 ≤ t → t ≤ i → rnd₁ t = rnd₂ t) →
      shuffleLoop rnd₁ i l = shuffleLoop rnd₂ i l
  | 0, _, _ => rfl
  | i + 1, l, h => by
    simp only [shuffleLoop]
    rw [h (i + 1) (by omega) (Nat.le_refl _)]
    exact shuffleLoop_congr rnd₁ rnd₂ i _ (fun t h1 h2 => h t h1 (by omega))

/-- A run of the global-stream loop starting at counter `k` equals the pure
loop on the stream segment `g k, g (k+1), ...` (draw for loop index `t` is
the `(i - t)`-th call), and advances the counter by `i`. -/
theorem shuffleLoopG_eq {α : Type} (g : Nat → Nat) :
    ∀ (i k : Nat) (l : List α),
      shuffleLoopG g k i l = (shuffleLoop (fun t => g (k + (i - t))) i l, k + i) := by
  intro i
  induction i with
  | zero => intro k l; rfl
  | succ i ih =>
    intro k l
    simp only [shuffleLoopG, shuffleLoop]
    rw [ih (k + 1)]
    have harg : g (k + (i + 1 - (i + 1))) = g k := by
      congr 1
      omega
    rw [harg]
    refine Prod.ext ?_ (by omega)
    exact shuffleLoop_congr _ _ i _
      (fun t h1 h2 => congrArg g (by omega))

/-- Iterating the turn advance from a valid cursor: `k` steps land on
`(c + k) % n`. -/
theorem advanceTurn_iterate (n : Nat) :
    ∀ (k c : Nat), c < n → (advanceTurn n)^[k] c = (c + k) % n := by
  intro k
  induction k with
  | zero =>
    intro c hc
    simp [Nat.mod_eq_of_lt hc]
  | succ k ih =>
    intro c hc
    have hn : 0 < n := Nat.lt_of_le_of_lt (Nat.zero_le c) hc
    rw [Function.iterate_succ_apply, advanceTurn, ih _ (Nat.mod_lt _ hn)]
    rw [Nat.mod_add_mod]
    congr 1
    omega

/-- An accepted play commits exactly the two writes of page.tsx lines 590-591:
append to `playedCards`, advance `currentTurn`. -/
theorem handleCardPlay_accepted (s : AppState) (pid : String) (card : Card)
    (hacc : playAccepted s (some pid) = true) :
    handleCardPlay s (some pid) card =
      { s with
        playedCards := s.playedCards ++ [{ card := card, playerId := pid }]
        currentTurn := (s.currentTurn + 1) % s.players.length } := by
  have h := hacc
  simp only [playAccepted, Option.isSome_some, Bool.true_and, Bool.and_eq_true] at h
  simp [handleCardPlay, h.1, h.2]

/-- `handleCardPlay` never writes the `gameState` cell. -/
theorem handleCardPlay_gameState (s : AppState) (cp : Option String) (card : Card) :
    (handleCardPlay s cp card).gameState = s.gameState := by
  cases cp with
  | none => rfl
  | some pid =>
    simp only [handleCardPlay]
    split <;> rfl

/-- The two copies of the shuffle loop coincide. -/
theorem cardTsxShuffleLoop_eq (rnd : Nat → Nat) :
    ∀ (i : Nat) (l : List Card), CardTsx.shuffleLoop rnd i l = shuffleLoop rnd i l
  | 0, _ => rfl
  | i + 1, l => by
    simp only [CardTsx.shuffleLoop, shuffleLoop]
    exact cardTsxShuffleLoop_eq rnd i _

set_option maxRecDepth 10000

/-- C1: the claimed invariant — after game start no card identity appears in
more than one of {deck, hands, played pile} and hands are drawn from the live
shuffled deck — is violated by the code: `playerHand` is the fixed mock
`[createDeck()[0], createDeck()[1], createDeck()[2]]`, so with the no-op draw
sequence a card of the hand also sits in the 39-card live deck, and the hand
is the same for two different shuffles. -/
theorem c1_mock_hand_breaks_card_zone_invariant :
    (∃ c, c ∈ playerHand playingState ∧ c ∈ playingState.gameState.deck)
    ∧ playerHand playingState = playerHand (initializeGame rndC true startState) := by
  constructor
  · decide
  · decide

/-- C2: for every input deck and every draw sequence, `shuffleDeck` returns a
permutation of its input — same length, same multiset, no card dropped or
duplicated; likewise for a run against the global `Math.random` stream at any
call-counter position. -/
theorem c2_shuffleDeck_is_permutation (rnd g : Nat → Nat) (k : Nat)
    (deck : List Card) :
    List.Perm (shuffleDeck rnd deck) deck
    ∧ (shuffleDeck rnd deck).length = deck.length
    ∧ List.Perm (shuffleDeckGlobal g k deck).1 deck := by
  refine ⟨shuffleLoop_perm rnd _ deck, (shuffleLoop_perm rnd _ deck).length_eq, ?_⟩
  rw [shuffleDeckGlobal, shuffleLoopG_eq]
  exact shuffleLoop_perm _ _ deck

/-- C3: `createDeck` is a constant returning exactly 40 cards, the (suit,
rank) pairs in suit-major then rank-major declaration order, each with a
distinct id string, each scored by `CARD_SCORES` (1↦11, 3↦10, king↦4,
knight↦3, jack↦2, rest 0), and the scores sum to 120. -/
theorem c3_createDeck_canonical_and_scores :
    createDeck.length = 40
    ∧ createDeck.map (fun c => (c.suit, c.value)) =
        [(.club, .one), (.club, .two), (.club, .three), (.club, .four),
         (.club, .five), (.club, .six), (.club, .seven), (.club, .jack),
         (.club, .knight), (.club, .king),
         (.coin, .one), (.coin, .two), (.coin, .three), (.coin, .four),
         (.coin, .five), (.coin, .six), (.coin, .seven), (.coin, .jack),
         (.coin, .knight), (.coin, .king),
         (.cup, .one), (.cup, .two), (.cup, .three), (.cup, .four),
         (.cup, .five), (.cup, .six), (.cup, .seven), (.cup, .jack),
         (.cup, .knight), (.cup, .king),
         (.sword, .one), (.sword, .two), (.sword, .three), (.sword, .four),
         (.sword, .five), (.sword, .six), (.sword, .seven), (.sword, .jack),
         (.sword, .knight), (.sword, .king)]
    ∧ (createDeck.map fun c => c.id).Nodup
    ∧ (∀ c ∈ createDeck, c.score = CARD_SCORES c.value)
    ∧ (createDeck.map fun c => c.score).sum = 120
    ∧ CARD_SCORES .one = 11 ∧ CARD_SCORES .three = 10 ∧ CARD_SCORES .king = 4
    ∧ CARD_SCORES .knight = 3 ∧ CARD_SCORES .jack = 2 ∧ CARD_SCORES .two = 0
    ∧ CARD_SCORES .four = 0 ∧ CARD_SCORES .five = 0 ∧ CARD_SCORES .six = 0
    ∧ CARD_SCORES .seven = 0 := by
  decide

/-- C4: every rejected `handleCardPlay` — not the submitter's turn, absent
player, or game not started — leaves the whole shared state (played pile,
turn cursor, deck, trump card, flags, roster) completely unchanged. -/
theorem c4_rejected_play_leaves_state_unchanged (s : AppState)
    (cp : Option String) (card : Card) (h : playAccepted s cp = false) :
    handleCardPlay s cp card = s := by
  cases cp with
  | none => rfl
  | some pid =>
    simp only [playAccepted, Option.isSome_some, Bool.true_and] at h
    have hc : (!(currentPlayerIndex s.players (some pid) == (s.currentTurn : Int))
        || !s.gameState.gameStarted) = true := by
      rw [← Bool.not_and, h]
      rfl
    simp only [handleCardPlay, hc, if_true]

/-- C4 witness: a play submitted before the game started is rejected and the
state is unchanged. -/
theorem c4_witness :
    playAccepted startState (some "alice") = false
    ∧ handleCardPlay startState (some "alice") (mkCard .club .one) = startState :=
  ⟨by decide, c4_rejected_play_leaves_state_unchanged startState (some "alice")
      (mkCard .club .one) (by decide)⟩

/-- C5 counterexample: the sword king is not in the submitting player's hand,
yet `handleCardPlay` accepts it and appends it to the played pile — there is
no `CardNotInHand` rejection in the code. -/
theorem c5_counterexample_card_not_in_hand_added :
    mkCard .sword .king ∉ playerHand playingState
    ∧ (handleCardPlay playingState (some "alice") (mkCard .sword .king)).playedCards
        = [{ card := mkCard .sword .king, playerId := "alice" }] := by
  constructor
  · decide
  · decide

/-- C5 amended: `handleCardPlay` performs no hand-membership check: whenever
it is the submitter's turn and the game has started, any card — in particular
one not held by the submitter — is accepted and appended to the played
pile. -/
theorem c5_amended_no_hand_membership_check (s : AppState) (pid : String)
    (card : Card) (hacc : playAccepted s (some pid) = true)
    (_hnot : card ∉ playerHand s) :
    (handleCardPlay s (some pid) card).playedCards
      = s.playedCards ++ [{ card := card, playerId := pid }] := by
  rw [handleCardPlay_accepted s pid card hacc]

/-- C5 witness: the amended statement at a concrete reachable state and a
concrete card outside the hand. -/
theorem c5_amended_witness :
    playAccepted playingState (some "alice") = true
    ∧ mkCard .sword .king ∉ playerHand playingState
    ∧ (handleCardPlay playingState (some "alice") (mkCard .sword .king)).playedCards
        = playingState.playedCards
            ++ [{ card := mkCard .sword .king, playerId := "alice" }] :=
  ⟨by decide, by decide,
    c5_amended_no_hand_membership_check playingState "alice" (mkCard .sword .king)
      (by decide) (by decide)⟩

/-- C6: an accepted play sets the turn cursor to exactly
`(currentTurn + 1) % players.length`, and iterating that advance
`rosterSize` times from any valid cursor returns to the original value. -/
theorem c6_turn_cursor_cycles (s : AppState) (pid : String) (card : Card)
    (hacc : playAccepted s (some pid) = true) (n c : Nat) (hc : c < n) :
    (handleCardPlay s (some pid) card).currentTurn
        = advanceTurn s.players.length s.currentTurn
    ∧ (advanceTurn n)^[n] c = c := by
  constructor
  · rw [handleCardPlay_accepted s pid card hacc]
    rfl
  · rw [advanceTurn_iterate n n c hc, Nat.add_mod_right, Nat.mod_eq_of_lt hc]

/-- C6 witness: one accepted play advances 0 to `advanceTurn 2 0`, and two
advances starting from cursor 1 of a 2-roster return to 1. -/
theorem c6_witness :
    playAccepted playingState (some "alice") = true ∧ (1 : Nat) < 2
    ∧ (handleCardPlay playingState (some "alice") (mkCard .club .one)).currentTurn
        = advanceTurn playingState.players.length playingState.currentTurn
    ∧ (advanceTurn 2)^[2] 1 = 1 :=
  ⟨by decide, by decide,
    (c6_turn_cursor_cycles playingState "alice" (mkCard .club .one)
      (by decide) 2 1 (by decide)).1,
    (c6_turn_cursor_cycles playingState "alice" (mkCard .club .one)
      (by decide) 2 1 (by decide)).2⟩

/-- C7 counterexample: `shuffleDeck` draws from the global `Math.random`
stream, so two successive runs on the same two-card deck — the second
starting at the counter position where the first ended — give different
outputs for a concrete stream: there is no injected seed that makes reruns
reproducible. -/
theorem c7_counterexample_two_runs_differ :
    (shuffleDeckGlobal gStream 0 twoCards).1
      ≠ (shuffleDeckGlobal gStream (shuffleDeckGlobal gStream 0 twoCards).2
          twoCards).1 := by
  decide

/-- C7 amended: the randomness `shuffleDeck` consumes is the ambient global
`Math.random` stream, not an injected source; the outcome is deterministic
only relative to the stream slice at the current global call-counter
position: a run starting at counter `k` equals the pure shuffle fed the
draws `g k, …, g (k + n - 2)` and advances the counter by `n - 1`. -/
theorem c7_amended_global_stream_determinism (g : Nat → Nat) (k : Nat)
    (deck : List Card) :
    (shuffleDeckGlobal g k deck).1
        = shuffleDeck (fun t => g (k + (deck.length - 1 - t))) deck
    ∧ (shuffleDeckGlobal g k deck).2 = k + (deck.length - 1) := by
  rw [shuffleDeckGlobal, shuffleLoopG_eq]
  exact ⟨rfl, rfl⟩

/-- C8: when the host initializes a not-yet-started game, exactly the bottom
(last, popped) card of the shuffled deck becomes the trump card, the deck
keeps the remaining 39 cards, deck plus trump card is still a permutation of
the full 40-card deck, the game is marked started, and no later play ever
changes the trump card. -/
theorem c8_trump_card_from_deck_bottom (rnd : Nat → Nat) (s : AppState)
    (hstart : s.gameState.gameStarted = false) :
    (initializeGame rnd true s).gameState.deck
        = (shuffleDeck rnd createDeck).dropLast
    ∧ (initializeGame rnd true s).gameState.trumpCard
        = (shuffleDeck rnd createDeck).getLast?
    ∧ (initializeGame rnd true s).gameState.deck.length = 39
    ∧ List.Perm ((initializeGame rnd true s).gameState.deck
        ++ ((initializeGame rnd true s).gameState.trumpCard).toList) createDeck
    ∧ (initializeGame rnd true s).gameState.gameStarted = true
    ∧ ∀ (cp : Option String) (card : Card),
        (handleCardPlay (initializeGame rnd true s) cp card).gameState.trumpCard
          = (initializeGame rnd true s).gameState.trumpCard := by
  have hlen : (shuffleDeck rnd createDeck).length = 40 :=
    ((shuffleLoop_perm rnd (createDeck.length - 1) createDeck).length_eq).trans
      (by decide)
  have hne : shuffleDeck rnd createDeck ≠ [] := by
    intro hnil
    rw [hnil] at hlen
    exact absurd hlen (by decide)
  have hinit : initializeGame rnd true s =
      { s with gameState :=
          { deck := (shuffleDeck rnd createDeck).dropLast
            trumpCard := (shuffleDeck rnd createDeck).getLast?
            gameStarted := true
            isShuffling := false } } := by
    unfold initializeGame
    rw [hstart]
    rfl
  have e1 : (initializeGame rnd true s).gameState.deck
      = (shuffleDeck rnd createDeck).dropLast := by rw [hinit]
  have e2 : (initializeGame rnd true s).gameState.trumpCard
      = (shuffleDeck rnd createDeck).getLast? := by rw [hinit]
  have e5 : (initializeGame rnd true s).gameState.gameStarted = true := by
    rw [hinit]
  refine ⟨e1, e2, ?_, ?_, e5, ?_⟩
  · rw [e1, List.length_dropLast, hlen]
  · have hg : (shuffleDeck rnd createDeck).getLast? =
        some ((shuffleDeck rnd createDeck).getLast hne) :=
      List.getLast?_eq_getLast_of_ne_nil hne
    rw [e1, e2, hg, Option.toList_some, List.dropLast_append_getLast hne]
    exact shuffleLoop_perm rnd _ createDeck
  · intro cp card
    rw [handleCardPlay_gameState]

/-- C8 witness: the theorem applied at the concrete two-player lobby state
and the no-op draw sequence. -/
theorem c8_witness :
    startState.gameState.gameStarted = false
    ∧ ((initializeGame rnd0 true startState).gameState.deck
          = (shuffleDeck rnd0 createDeck).dropLast
      ∧ (initializeGame rnd0 true startState).gameState.trumpCard
          = (shuffleDeck rnd0 createDeck).getLast?
      ∧ (initializeGame rnd0 true startState).gameState.deck.length = 39
      ∧ List.Perm ((initializeGame rnd0 true startState).gameState.deck
          ++ ((initializeGame rnd0 true startState).gameState.trumpCard).toList)
          createDeck
      ∧ (initializeGame rnd0 true startState).gameState.gameStarted = true
      ∧ ∀ (cp : Option String) (card : Card),
          (handleCardPlay (initializeGame rnd0 true startState)
              cp card).gameState.trumpCard
            = (initializeGame rnd0 true startState).gameState.trumpCard) :=
  ⟨rfl, c8_trump_card_from_deck_bottom rnd0 startState rfl⟩

/-- C9: the scoring table, the rank order, the deck builder and the shuffle
exported from Card.tsx are extensionally equal to the separate copies
defined inside page.tsx. -/
theorem c9_card_tsx_and_page_tsx_copies_agree :
    CardTsx.CARD_SCORES = CARD_SCORES
    ∧ CardTsx.BRISCOLA_VALUE_ORDER = BRISCOLA_VALUE_ORDER
    ∧ CardTsx.CARD_NAMES = CARD_NAMES
    ∧ CardTsx.createDeck = createDeck
    ∧ ∀ (rnd : Nat → Nat) (deck : List Card),
        CardTsx.shuffleDeck rnd deck = shuffleDeck rnd deck := by
  refine ⟨funext fun v => by cases v <;> rfl, rfl,
    funext fun v => by cases v <;> rfl, by decide, ?_⟩
  intro rnd deck
  simp only [CardTsx.shuffleDeck, shuffleDeck]
  exact cardTsxShuffleLoop_eq rnd _ deck

/-- C10: an accepted play appends exactly one entry — the played card with
the submitter's id — to the played pile and advances the turn cursor; the
deck, the trump card, the started flag (the whole `gameState` cell) and the
roster are untouched: no card is drawn or returned. -/
theorem c10_accepted_play_appends_one_and_frames_rest (s : AppState)
    (pid : String) (card : Card) (hacc : playAccepted s (some pid) = true) :
    (handleCardPlay s (some pid) card).playedCards
        = s.playedCards ++ [{ card := card, playerId := pid }]
    ∧ (handleCardPlay s (some pid) card).currentTurn
        = (s.currentTurn + 1) % s.players.length
    ∧ (handleCardPlay s (some pid) card).gameState = s.gameState
    ∧ (handleCardPlay s (some pid) card).gameState.deck = s.gameState.deck
    ∧ (handleCardPlay s (some pid) card).gameState.trumpCard
        = s.gameState.trumpCard
    ∧ (handleCardPlay s (some pid) card).gameState.gameStarted
        = s.gameState.gameStarted
    ∧ (handleCardPlay s (some pid) card).players = s.players := by
  rw [handleCardPlay_accepted s pid card hacc]
  exact ⟨rfl, rfl, rfl, rfl, rfl, rfl, rfl⟩

/-- C10 witness: the theorem applied at a concrete freshly started game. -/
theorem c10_witness :
    playAccepted playingState (some "alice") = true
    ∧ ((handleCardPlay playingState (some "alice") (mkCard .cup .seven)).playedCards
          = playingState.playedCards
              ++ [{ card := mkCard .cup .seven, playerId := "alice" }]
      ∧ (handleCardPlay playingState (some "alice") (mkCard .cup .seven)).currentTurn
          = (playingState.currentTurn + 1) % playingState.players.length
      ∧ (handleCardPlay playingState (some "alice")
            (mkCard .cup .seven)).gameState = playingState.gameState
      ∧ (handleCardPlay playingState (some "alice")
            (mkCard .cup .seven)).gameState.deck = playingState.gameState.deck
      ∧ (handleCardPlay playingState (some "alice")
            (mkCard .cup .seven)).gameState.trumpCard
          = playingState.gameState.trumpCard
      ∧ (handleCardPlay playingState (some "alice")
            (mkCard .cup .seven)).gameState.gameStarted
          = playingState.gameState.gameStarted
      ∧ (handleCardPlay playingState (some "alice")
            (mkCard .cup .seven)).players = playingState.players) :=
  ⟨by decide, c10_accepted_play_appends_one_and_frames_rest playingState "alice"
      (mkCard .cup .seven) (by decide)⟩
